import Mathlib

/-!
Verification of the cocoa-yield-estimation inference API.

Shallow embedding of the two Flask endpoint modules:
  * `src/api/detect.py`   — legacy segmentation endpoint (`estimate_yield`),
    morphology scoring, 0.8 Medium/High aggregation boundary, no box-size filter.
  * `src/api/yield_detect.py` — current endpoint (`detect_and_estimate`),
    learned-scorer-with-fallback, box-size filtering, 0.75 aggregation boundary.

Python floats are modelled as exact rationals (every IEEE float is a rational
and all constants in the source are short decimals); the learned sigmoid is
modelled over the reals.  Image buffers, the detector and the learned forward
pass are opaque parameters: the handlers are functions of the uploaded form
field, a decoder, a detector and a per-crop scorer, exactly mirroring the
control flow of the Python request handlers.
-/

/-- The yield categories `['Low', 'Medium', 'High']` of both modules. -/
inductive YieldCategory where
  | Low
  | Medium
  | High
deriving DecidableEq, Repr

/-- `aspect_ratio = width / height if height > 0 else 1.0`
(detect.py line 93, yield_detect.py line 216). -/
def aspect_of (width height : ℚ) : ℚ :=
  if height > 0 then width / height else 1

/-- `estimate_yield_from_morphology` (detect.py lines 30-46).
`perimeter` is accepted and ignored, as in the source. -/
def estimate_yield_from_morphology (mask_area aspect_ratio perimeter : ℚ) :
    YieldCategory × ℚ :=
  let area_score := min (mask_area / 50000) 1
  let shape_score := 1 - |aspect_ratio - 3/2| / 2
  let fullness_score := area_score * (7/10) + shape_score * (3/10)
  if fullness_score > 7/10 then (.High, fullness_score)
  else if fullness_score > 2/5 then (.Medium, fullness_score)
  else (.Low, fullness_score)

/-- A cropped pod image; only its shape `(height, width)` is observable to the
fallback scorer (yield_detect.py line 214 `pod_image.shape[:2]`). -/
structure Crop where
  height : ℕ
  width : ℕ
deriving DecidableEq, Repr

/-- `estimate_yield_fallback` (yield_detect.py lines 210-228):
`area = height * width`, then the same morphology heuristic. -/
def estimate_yield_fallback (c : Crop) : YieldCategory × ℚ :=
  let area : ℚ := (c.height : ℚ) * (c.width : ℚ)
  let aspect_ratio : ℚ := if (c.height : ℚ) > 0 then (c.width : ℚ) / (c.height : ℚ) else 1
  let area_score := min (area / 50000) 1
  let shape_score := 1 - |aspect_ratio - 3/2| / 2
  let fullness_score := area_score * (7/10) + shape_score * (3/10)
  if fullness_score > 7/10 then (.High, fullness_score)
  else if fullness_score > 2/5 then (.Medium, fullness_score)
  else (.Low, fullness_score)

/-- C1: the Morphology Scorer returns
fullness = 0.7 * min(area / 50000, 1) + 0.3 * (1 - |aspect_ratio - 1.5| / 2)
with `aspect_ratio = width / height` when height > 0 and 1.0 otherwise, and
classifies with strict comparisons: High iff fullness > 0.7, Medium iff
0.4 < fullness <= 0.7, Low iff fullness <= 0.4; the fallback variant of
yield_detect.py agrees with it at area = height * width. -/
theorem C1_morphology_formula_and_boundaries :
    (∀ width height : ℚ, aspect_of width height = if height > 0 then width / height else 1) ∧
    (∀ area ar per : ℚ,
        (estimate_yield_from_morphology area ar per).2
          = 7/10 * min (area / 50000) 1 + 3/10 * (1 - |ar - 3/2| / 2)) ∧
    (∀ area ar per : ℚ,
        ((estimate_yield_from_morphology area ar per).1 = .High
            ↔ 7/10 < (estimate_yield_from_morphology area ar per).2) ∧
        ((estimate_yield_from_morphology area ar per).1 = .Medium
            ↔ 2/5 < (estimate_yield_from_morphology area ar per).2 ∧
              (estimate_yield_from_morphology area ar per).2 ≤ 7/10) ∧
        ((estimate_yield_from_morphology area ar per).1 = .Low
            ↔ (estimate_yield_from_morphology area ar per).2 ≤ 2/5)) ∧
    (∀ c : Crop,
        estimate_yield_fallback c
          = estimate_yield_from_morphology ((c.height : ℚ) * (c.width : ℚ))
              (aspect_of (c.width : ℚ) (c.height : ℚ)) 0) := by
  refine ⟨fun _ _ => rfl, fun area ar per => ?_, fun area ar per => ?_, fun c => ?_⟩
  · simp only [estimate_yield_from_morphology]
    split_ifs <;> ring
  · simp only [estimate_yield_from_morphology]
    split_ifs with h1 h2
    · exact ⟨iff_of_true rfl h1,
        iff_of_false (by simp) (fun h => absurd h1 (not_lt.mpr h.2)),
        iff_of_false (by simp) (not_le.mpr (by linarith))⟩
    · exact ⟨iff_of_false (by simp) h1,
        iff_of_true rfl ⟨h2, not_lt.mp h1⟩,
        iff_of_false (by simp) (not_le.mpr h2)⟩
    · exact ⟨iff_of_false (by simp) h1,
        iff_of_false (by simp) (fun h => h2 h.1),
        iff_of_true rfl (not_lt.mp h2)⟩
  · unfold estimate_yield_fallback estimate_yield_from_morphology aspect_of
    rfl

/-- C9: the morphology fullness score is bounded above by 1 for every input,
but has no lower clamp: at mask area 0 and aspect ratio 6 it is strictly
negative, so [0,1] fails as a lower bound. -/
theorem C9_fullness_upper_bound_but_negative_possible :
    (∀ area ar per : ℚ, (estimate_yield_from_morphology area ar per).2 ≤ 1) ∧
    (estimate_yield_from_morphology 0 6 0).2 < 0 ∧
    (estimate_yield_from_morphology 0 6 0).1 = .Low := by
  refine ⟨fun area ar per => ?_, ?_, ?_⟩
  · have h1 : min (area / 50000) 1 ≤ 1 := min_le_right _ _
    have h2 : 0 ≤ |ar - 3/2| := abs_nonneg _
    simp only [estimate_yield_from_morphology]
    split_ifs <;> simp only <;> nlinarith
  · norm_num [estimate_yield_from_morphology, abs_of_nonneg]
  · norm_num [estimate_yield_from_morphology, abs_of_nonneg]

/-- A per-pod entry of the JSON `pods[]` list, as built by both endpoints
(detect.py lines 108-119, yield_detect.py lines 306-312).  The legacy
endpoint's extra `morphology` sub-object is not modelled; no claim touches it. -/
structure PodDetection where
  pod_id : ℕ
  bbox : ℚ × ℚ × ℚ × ℚ
  confidence : ℚ
  yield_category : YieldCategory
  yield_score : ℚ
deriving DecidableEq, Repr

/-- `category_scores = {'Low': 0, 'Medium': 1, 'High': 2}`
(detect.py line 125, yield_detect.py line 317). -/
def category_scores : YieldCategory → ℚ
  | .Low => 0
  | .Medium => 1
  | .High => 2

/-- `total_weight = sum(d['confidence'] for d in pod_detections)`
(detect.py line 124, yield_detect.py line 318). -/
def total_weight (pods : List PodDetection) : ℚ :=
  (pods.map (fun d => d.confidence)).sum

/-- `weighted_score = sum(category_scores[cat] * conf) / total_weight`
(detect.py lines 126-129, yield_detect.py lines 319-322). -/
def weighted_score (pods : List PodDetection) : ℚ :=
  (pods.map (fun d => category_scores d.yield_category * d.confidence)).sum
    / total_weight pods

/-- Re-bucketing of yield_detect.py lines 327-332: `>= 1.5` High,
`elif >= 0.75` Medium, else Low. -/
def overall_from_weighted_v2 (w : ℚ) : YieldCategory :=
  if w ≥ 3/2 then .High
  else if w ≥ 3/4 then .Medium
  else .Low

/-- Re-bucketing of the legacy detect.py lines 132-137: `>= 1.5` High,
`elif >= 0.8` Medium, else Low. -/
def overall_from_weighted_v1 (w : ℚ) : YieldCategory :=
  if w ≥ 3/2 then .High
  else if w ≥ 4/5 then .Medium
  else .Low

/-- Re-bucketing exactly as the spec phrases it, with explicit half-open
intervals: High iff W >= 1.5, Medium iff 0.75 <= W < 1.5, else Low.
Stated from the spec to compare with `overall_from_weighted_v2`. -/
def overall_spec_form (w : ℚ) : YieldCategory :=
  if 3/2 ≤ w then .High
  else if 3/4 ≤ w ∧ w < 3/2 then .Medium
  else .Low

/-- C2: for every non-empty pod list with confidences in (0,1], the aggregate
is W = sum(ordinal * conf) / sum(conf) with ordinals Low 0, Medium 1, High 2,
and the re-bucketing has inclusive boundaries: High iff W >= 1.5, Medium iff
0.75 <= W < 1.5; exactly 1.5 maps to High and exactly 0.75 to Medium. -/
theorem C2_weighted_aggregation_boundaries (pods : List PodDetection)
    (hne : pods ≠ [])
    (hconf : ∀ p ∈ pods, 0 < p.confidence ∧ p.confidence ≤ 1) :
    weighted_score pods
      = (pods.map (fun d => category_scores d.yield_category * d.confidence)).sum
        / (pods.map (fun d => d.confidence)).sum ∧
    (∀ w : ℚ, overall_from_weighted_v2 w = overall_spec_form w) ∧
    overall_from_weighted_v2 (3/2) = .High ∧
    overall_from_weighted_v2 (3/4) = .Medium := by
  refine ⟨rfl, fun w => ?_, by norm_num [overall_from_weighted_v2],
    by norm_num [overall_from_weighted_v2]⟩
  rcases le_or_lt (3/2 : ℚ) w with h1 | h1
  · simp [overall_from_weighted_v2, overall_spec_form, h1]
  · rcases le_or_lt (3/4 : ℚ) w with h2 | h2
    · simp [overall_from_weighted_v2, overall_spec_form, h1, h2, not_le.mpr h1]
    · simp [overall_from_weighted_v2, overall_spec_form, not_le.mpr h1, not_le.mpr h2]

/-- Positivity of the total weight for a non-empty pod list with positive
confidences. -/
theorem total_weight_pos (pods : List PodDetection) (hne : pods ≠ [])
    (hpos : ∀ p ∈ pods, 0 < p.confidence) : 0 < total_weight pods := by
  apply List.sum_pos
  · intro x hx
    obtain ⟨p, hp, rfl⟩ := List.mem_map.mp hx
    exact hpos p hp
  · simpa using hne

/-- C10: if every pod in a non-empty list has the same category C and positive
confidence, the weighted mean ordinal is exactly the ordinal of C, and both
re-bucketing variants (Medium boundary 0.75 and 0.8) return C. -/
theorem C10_uniform_category_aggregates_to_itself (pods : List PodDetection)
    (C : YieldCategory) (hne : pods ≠ [])
    (hcat : ∀ p ∈ pods, p.yield_category = C)
    (hpos : ∀ p ∈ pods, 0 < p.confidence) :
    weighted_score pods = category_scores C ∧
    overall_from_weighted_v2 (weighted_score pods) = C ∧
    overall_from_weighted_v1 (weighted_score pods) = C := by
  have hT : 0 < total_weight pods := total_weight_pos pods hne hpos
  have hmap : pods.map (fun d => category_scores d.yield_category * d.confidence)
      = pods.map (fun d => category_scores C * d.confidence) := by
    apply List.map_congr_left
    intro p hp
    rw [hcat p hp]
  have hW : weighted_score pods = category_scores C := by
    unfold weighted_score
    rw [hmap, List.sum_map_mul_left]
    exact mul_div_cancel_right₀ _ (ne_of_gt hT)
  refine ⟨hW, ?_, ?_⟩ <;> rw [hW] <;> cases C <;>
    norm_num [overall_from_weighted_v2, overall_from_weighted_v1, category_scores]

/-- Witness for C2 at the one-pod list [High with confidence 1]. -/
theorem C2_weighted_aggregation_boundaries_witness :
    overall_from_weighted_v2 (3/2) = .High ∧
    overall_from_weighted_v2 (3/4) = .Medium :=
  (C2_weighted_aggregation_boundaries
    [⟨0, (0, 0, 0, 0), 1, .High, 1⟩] (by simp) (by norm_num)).2.2

/-- Witness for C10 at a two-pod Medium list with confidences 1/2 and 1/4. -/
theorem C10_uniform_category_aggregates_to_itself_witness :
    weighted_score [⟨0, (0, 0, 0, 0), 1/2, .Medium, 1⟩,
                    ⟨1, (0, 0, 0, 0), 1/4, .Medium, 1⟩]
      = category_scores .Medium ∧
    overall_from_weighted_v2 (weighted_score
      [⟨0, (0, 0, 0, 0), 1/2, .Medium, 1⟩,
       ⟨1, (0, 0, 0, 0), 1/4, .Medium, 1⟩]) = .Medium ∧
    overall_from_weighted_v1 (weighted_score
      [⟨0, (0, 0, 0, 0), 1/2, .Medium, 1⟩,
       ⟨1, (0, 0, 0, 0), 1/4, .Medium, 1⟩]) = .Medium :=
  C10_uniform_category_aggregates_to_itself _ .Medium (by simp)
    (by intro p hp; fin_cases hp <;> rfl)
    (by intro p hp; fin_cases hp <;> norm_num)

/-- One raw detection from the segmentation model after `map(int, box)`
(yield_detect.py line 279): integer corner coordinates plus a confidence. -/
structure RawDet where
  x1 : ℤ
  y1 : ℤ
  x2 : ℤ
  y2 : ℤ
  conf : ℚ
deriving DecidableEq, Repr

/-- `box_width = x2 - x1` (yield_detect.py line 282). -/
def box_width (d : RawDet) : ℤ := d.x2 - d.x1

/-- `box_height = y2 - y1` (yield_detect.py line 283). -/
def box_height (d : RawDet) : ℤ := d.y2 - d.y1

/-- `box_area = box_width * box_height` (yield_detect.py line 284). -/
def box_area (d : RawDet) : ℤ := box_width d * box_height d

/-- `min_box_size = 50` (yield_detect.py line 287). -/
def min_box_size : ℤ := 50

/-- `min_box_area = 2500` (yield_detect.py line 288). -/
def min_box_area : ℤ := 2500

/-- The pod entry built at yield_detect.py lines 306-312 from a surviving
detection and the scorer's output. -/
def mk_pod (idx : ℕ) (d : RawDet) (ys : YieldCategory × ℚ) : PodDetection :=
  ⟨idx, ((d.x1 : ℚ), (d.y1 : ℚ), (d.x2 : ℚ), (d.y2 : ℚ)), d.conf, ys.1, ys.2⟩

/-- The numpy crop `img[max(0,y1):min(H,y2), max(0,x1):min(W,x2)]`
(yield_detect.py lines 295-296) has size 0 exactly when either slice is empty. -/
def crop_size_zero (h w : ℤ) (d : RawDet) : Prop :=
  min h d.y2 - max 0 d.y1 ≤ 0 ∨ min w d.x2 - max 0 d.x1 ≤ 0

instance (h w : ℤ) (d : RawDet) : Decidable (crop_size_zero h w d) := by
  unfold crop_size_zero; infer_instance

/-- The detection loop of yield_detect.py lines 278-312: enumerate raw
detections keeping the original index as `pod_id`, drop any box below the
minimum side length or area, drop empty crops, and score the rest.  The
scorer abstracts `estimate_yield_with_model` applied to the crop of the
(fixed) request image at the box. -/
def process_from (h w : ℤ) (scorer : RawDet → YieldCategory × ℚ) :
    ℕ → List RawDet → List PodDetection
  | _, [] => []
  | idx, d :: rest =>
    if box_width d < min_box_size ∨ box_height d < min_box_size ∨
        box_area d < min_box_area then
      process_from h w scorer (idx + 1) rest
    else if crop_size_zero h w d then
      process_from h w scorer (idx + 1) rest
    else
      mk_pod idx d (scorer d) :: process_from h w scorer (idx + 1) rest

/-- Every pod produced from the suffix starting at index `i` has `pod_id ≥ i`. -/
theorem process_from_pod_id_ge (h w : ℤ) (scorer : RawDet → YieldCategory × ℚ) :
    ∀ (l : List RawDet) (i : ℕ), ∀ p ∈ process_from h w scorer i l, i ≤ p.pod_id := by
  intro l
  induction l with
  | nil => intro i p hp; simp [process_from] at hp
  | cons d rest ih =>
    intro i p hp
    unfold process_from at hp
    split_ifs at hp with hf hc
    · exact Nat.le_of_succ_le (ih (i + 1) p hp)
    · exact Nat.le_of_succ_le (ih (i + 1) p hp)
    · rcases List.mem_cons.mp hp with rfl | hp
      · exact le_refl _
      · exact Nat.le_of_succ_le (ih (i + 1) p hp)

/-- C3: a detected box whose width or height is below the minimum side length
or whose area is below the minimum area is discarded before scoring and
aggregation: the resulting pods list, its length (the pod_count), and the
confidence-weighted score are those of the remaining detections, and no pod
with the discarded detection's index appears. -/
theorem C3_small_boxes_filtered_out (h w : ℤ)
    (scorer : RawDet → YieldCategory × ℚ) (i : ℕ) (d : RawDet)
    (rest : List RawDet)
    (hd : box_width d < min_box_size ∨ box_height d < min_box_size ∨
      box_area d < min_box_area) :
    process_from h w scorer i (d :: rest) = process_from h w scorer (i + 1) rest ∧
    (process_from h w scorer i (d :: rest)).length
      = (process_from h w scorer (i + 1) rest).length ∧
    (∀ p ∈ process_from h w scorer i (d :: rest), p.pod_id ≠ i) ∧
    weighted_score (process_from h w scorer i (d :: rest))
      = weighted_score (process_from h w scorer (i + 1) rest) := by
  have heq : process_from h w scorer i (d :: rest)
      = process_from h w scorer (i + 1) rest := by
    conv_lhs => rw [process_from]
    rw [if_pos hd]
  refine ⟨heq, by rw [heq], ?_, by rw [heq]⟩
  intro p hp
  rw [heq] at hp
  have := process_from_pod_id_ge h w scorer rest (i + 1) p hp
  omega

/-- Witness for C3: a 10 x 10 box with confidence 1/2 is dropped and an empty
remainder yields no pods. -/
theorem C3_small_boxes_filtered_out_witness :
    process_from 1000 1000 (fun _ => (.Low, 0)) 0 [⟨0, 0, 10, 10, 1/2⟩] = [] :=
  (C3_small_boxes_filtered_out 1000 1000 (fun _ => (.Low, 0)) 0
    ⟨0, 0, 10, 10, 1/2⟩ [] (Or.inl (by norm_num [box_width, min_box_size]))).1

/-- Raw uploaded bytes of the multipart `image` field. -/
abbrev ImageBytes := List ℕ

/-- A decoded raster image; the handlers observe only `img.shape[:2]`
(orig_height, orig_width). -/
structure Img where
  height : ℤ
  width : ℤ
deriving DecidableEq, Repr

/-- One detection of the legacy segmentation endpoint (detect.py lines 83-101):
float box corners, mask pixel area, contour perimeter, confidence. -/
structure SegDet where
  x1 : ℚ
  y1 : ℚ
  x2 : ℚ
  y2 : ℚ
  mask_area : ℚ
  perimeter : ℚ
  conf : ℚ
deriving DecidableEq, Repr

/-- The JSON bodies the two endpoints can produce: `(error, status, message)`
for `jsonify({'error': ...}), status`, and `ok` for the success / no-detection
bodies.  Response fields not touched by any claim (image dimensions, average
yield score, model_used, thresholds, the legacy morphology sub-object) are
not modelled. -/
inductive Response where
  | error (status : ℕ) (message : String)
  | ok (success : Bool) (overall : Option YieldCategory) (pod_count : ℕ)
      (pods : List PodDetection) (message : Option String)
deriving DecidableEq, Repr

/-- HTTP status of a response; Flask `jsonify` without an explicit code
returns 200. -/
def Response.status : Response → ℕ
  | .error s _ => s
  | .ok _ _ _ _ _ => 200

/-- Body of the missing-field error (detect.py line 53, yield_detect.py
line 245). -/
def no_image_msg : String := "No image provided"

/-- Body of the undecodable-image error (yield_detect.py line 255). -/
def invalid_image_msg : String := "Invalid image"

/-- Message of the zero-detections body (detect.py line 150, yield_detect.py
line 353). -/
def no_pods_msg : String := "No cacao pods detected"

/-- The text `str(e)` of the AttributeError raised at detect.py line 63 when
`cv2.imdecode` returns None and `.shape` is read from it; the blanket handler
at lines 158-160 turns it into a 500 body. -/
def decode_crash_msg : String := "NoneType object has no attribute shape"

/-- The pod built by detect.py lines 83-119 from one segmentation detection:
width/height from the float box, aspect ratio with the height-zero guard,
morphology scoring.  No size filter exists on this path. -/
def seg_to_pod (idx : ℕ) (d : SegDet) : PodDetection :=
  let width := d.x2 - d.x1
  let height := d.y2 - d.y1
  let ys := estimate_yield_from_morphology d.mask_area (aspect_of width height) d.perimeter
  ⟨idx, (d.x1, d.y1, d.x2, d.y2), d.conf, ys.1, ys.2⟩

/-- `estimate_yield` (detect.py lines 49-160), the legacy `/api/estimate-yield`
handler, as a function of the form field, the image decoder and the
segmentation model.  When `cv2.imdecode` yields None there is no check: the
`.shape` access raises and the blanket `except` returns status 500. -/
def estimate_yield (form_image : Option ImageBytes)
    (decode : ImageBytes → Option Img)
    (detect : Img → List SegDet) : Response :=
  match form_image with
  | none => .error 400 no_image_msg
  | some bytes =>
    match decode bytes with
    | none => .error 500 decode_crash_msg
    | some img =>
      let pods := ((detect img).enum).map (fun p => seg_to_pod p.1 p.2)
      if pods = [] then .ok false none 0 [] (some no_pods_msg)
      else .ok true (some (overall_from_weighted_v1 (weighted_score pods)))
        pods.length pods none

/-- `detect_and_estimate` (yield_detect.py lines 241-365), the current
`/api/detect` handler: missing field check, decode with explicit None check
(status 400), size-filtered detection loop, confidence-weighted aggregation
with the 0.75 boundary.  The scorer abstracts `estimate_yield_with_model`
applied to the crop at each surviving box. -/
def detect_and_estimate (form_image : Option ImageBytes)
    (decode : ImageBytes → Option Img)
    (detect : Img → List RawDet)
    (scorer : RawDet → YieldCategory × ℚ) : Response :=
  match form_image with
  | none => .error 400 no_image_msg
  | some bytes =>
    match decode bytes with
    | none => .error 400 invalid_image_msg
    | some img =>
      let pods := process_from img.height img.width scorer 0 (detect img)
      if pods = [] then .ok false none 0 [] (some no_pods_msg)
      else .ok true (some (overall_from_weighted_v2 (weighted_score pods)))
        pods.length pods none

/-- C8: a POST without an `image` form field gets HTTP 400 with body
error = "No image provided" from both handlers, independently of the decoder,
the detector and the scorer (so before any decoding or inference). -/
theorem C8_missing_image_field_400 :
    (∀ (decode : ImageBytes → Option Img) (detect : Img → List RawDet)
        (scorer : RawDet → YieldCategory × ℚ),
        detect_and_estimate none decode detect scorer = .error 400 no_image_msg) ∧
    (∀ (decode : ImageBytes → Option Img) (detect : Img → List SegDet),
        estimate_yield none decode detect = .error 400 no_image_msg) ∧
    no_image_msg = "No image provided" :=
  ⟨fun _ _ _ => rfl, fun _ _ => rfl, rfl⟩

/-- C5: when the image decodes but zero pods survive detection and filtering,
both handlers return the success:false body with pod_count 0, empty pods and
null overall_yield, at the non-error status 200. -/
theorem C5_zero_pods_is_success_false_not_error (bytes : ImageBytes)
    (decode : ImageBytes → Option Img) (img : Img)
    (detect2 : Img → List RawDet) (scorer : RawDet → YieldCategory × ℚ)
    (detect1 : Img → List SegDet)
    (hdec : decode bytes = some img)
    (h2 : process_from img.height img.width scorer 0 (detect2 img) = [])
    (h1 : detect1 img = []) :
    detect_and_estimate (some bytes) decode detect2 scorer
      = .ok false none 0 [] (some no_pods_msg) ∧
    (detect_and_estimate (some bytes) decode detect2 scorer).status = 200 ∧
    estimate_yield (some bytes) decode detect1
      = .ok false none 0 [] (some no_pods_msg) ∧
    (estimate_yield (some bytes) decode detect1).status = 200 := by
  have e2 : detect_and_estimate (some bytes) decode detect2 scorer
      = .ok false none 0 [] (some no_pods_msg) := by
    simp [detect_and_estimate, hdec, h2]
  have e1 : estimate_yield (some bytes) decode detect1
      = .ok false none 0 [] (some no_pods_msg) := by
    simp [estimate_yield, hdec, h1]
  exact ⟨e2, by rw [e2]; rfl, e1, by rw [e1]; rfl⟩

/-- Witness for C5 with an empty detector on a 100 x 100 image. -/
theorem C5_zero_pods_is_success_false_not_error_witness :
    detect_and_estimate (some []) (fun _ => some ⟨100, 100⟩) (fun _ => [])
        (fun _ => (.Low, 0))
      = .ok false none 0 [] (some no_pods_msg) ∧
    (detect_and_estimate (some []) (fun _ => some ⟨100, 100⟩) (fun _ => [])
        (fun _ => (.Low, 0))).status = 200 ∧
    estimate_yield (some []) (fun _ => some ⟨100, 100⟩) (fun _ => [])
      = .ok false none 0 [] (some no_pods_msg) ∧
    (estimate_yield (some []) (fun _ => some ⟨100, 100⟩) (fun _ => [])).status
      = 200 :=
  C5_zero_pods_is_success_false_not_error [] (fun _ => some ⟨100, 100⟩)
    ⟨100, 100⟩ (fun _ => []) (fun _ => (.Low, 0)) (fun _ => []) rfl rfl rfl

/-- C4 counterexample: the legacy estimate_yield handler (detect.py), one of
the endpoints the claim ranges over, answers undecodable image bytes with
HTTP 500 — the None result of cv2.imdecode is dereferenced and the blanket
exception handler fires — not with the claimed HTTP 400. -/
theorem C4_counterexample_legacy_gives_500 :
    (estimate_yield (some [0]) (fun _ => none) (fun _ => [])).status = 500 ∧
    (estimate_yield (some [0]) (fun _ => none) (fun _ => [])).status ≠ 400 :=
  ⟨rfl, by decide⟩

/-- C4 (amended): the current detect_and_estimate handler (yield_detect.py)
returns HTTP 400 with body error = "Invalid image" whenever the uploaded
bytes fail to decode; the legacy detect.py handler instead returns HTTP 500
through its generic exception handler (still no crash). -/
theorem C4_invalid_image_400_on_v2 (bytes : ImageBytes)
    (decode : ImageBytes → Option Img) (detect : Img → List RawDet)
    (scorer : RawDet → YieldCategory × ℚ)
    (hdec : decode bytes = none) :
    detect_and_estimate (some bytes) decode detect scorer
      = .error 400 invalid_image_msg ∧
    (detect_and_estimate (some bytes) decode detect scorer).status = 400 := by
  have e : detect_and_estimate (some bytes) decode detect scorer
      = .error 400 invalid_image_msg := by
    simp [detect_and_estimate, hdec]
  exact ⟨e, by rw [e]; rfl⟩

/-- Witness for the amended C4 at a concrete undecodable upload. -/
theorem C4_invalid_image_400_on_v2_witness :
    detect_and_estimate (some [0]) (fun _ => none) (fun _ => [])
        (fun _ => (.Low, 0))
      = .error 400 invalid_image_msg ∧
    (detect_and_estimate (some [0]) (fun _ => none) (fun _ => [])
        (fun _ => (.Low, 0))).status = 400 :=
  C4_invalid_image_400_on_v2 [0] (fun _ => none) (fun _ => [])
    (fun _ => (.Low, 0)) rfl

/-- The score-to-category thresholds of yield_detect.py lines 197-202:
`< 0.33` Low, `< 0.67` Medium, else High. -/
def score_to_category (score : ℚ) : YieldCategory :=
  if score < 33/100 then .Low
  else if score < 67/100 then .Medium
  else .High

/-- `estimate_yield_with_model` (yield_detect.py lines 179-208).
`models_loaded` is the startup flag MODELS_LOADED; `forward` is the
preprocess + encoder + ranking-head + sigmoid pipeline on the crop, returning
none when the forward pass raises.  With the flag unset, or on a raised
forward pass, the morphology fallback is used for the same crop. -/
def estimate_yield_with_model (models_loaded : Bool)
    (forward : Crop → Option ℚ) (c : Crop) : YieldCategory × ℚ :=
  if models_loaded = false then estimate_yield_fallback c
  else
    match forward c with
    | some score => (score_to_category score, score)
    | none => estimate_yield_fallback c

/-- The sigmoid applied to the single ranking-head logit
(yield_detect.py line 194), over the reals. -/
noncomputable def sigmoid (x : ℝ) : ℝ := 1 / (1 + Real.exp (-x))

/-- C6: whenever the yield models failed to initialize (MODELS_LOADED false)
or the learned forward pass raises, the Learned Scorer returns exactly the
Morphology Scorer fallback result for the same crop, so the caller always
observes a valid (category, score) pair. -/
theorem C6_fallback_on_unloaded_or_raising_model (models_loaded : Bool)
    (forward : Crop → Option ℚ) (c : Crop)
    (h : models_loaded = false ∨ forward c = none) :
    estimate_yield_with_model models_loaded forward c
      = estimate_yield_fallback c := by
  rcases h with h | h
  · simp [estimate_yield_with_model, h]
  · unfold estimate_yield_with_model
    rcases models_loaded with _ | _
    · rfl
    · simp [h]

/-- Witness for C6: unloaded models on a 100 x 100 crop. -/
theorem C6_fallback_on_unloaded_or_raising_model_witness :
    estimate_yield_with_model false (fun _ => some (1/2)) ⟨100, 100⟩
      = estimate_yield_fallback ⟨100, 100⟩ :=
  C6_fallback_on_unloaded_or_raising_model false (fun _ => some (1/2))
    ⟨100, 100⟩ (Or.inl rfl)

/-- C7: the learned score is the sigmoid of the ranking-head logit, hence
within [0,1], and the category thresholds are Low iff score < 0.33, Medium
iff 0.33 <= score < 0.67, High iff 0.67 <= score; with loaded models and a
non-raising forward pass the Learned Scorer returns exactly this pair. -/
theorem C7_sigmoid_score_and_thresholds :
    (∀ x : ℝ, 0 ≤ sigmoid x ∧ sigmoid x ≤ 1) ∧
    (∀ s : ℚ,
        (score_to_category s = .Low ↔ s < 33/100) ∧
        (score_to_category s = .Medium ↔ 33/100 ≤ s ∧ s < 67/100) ∧
        (score_to_category s = .High ↔ 67/100 ≤ s)) ∧
    (∀ (f : Crop → ℚ) (c : Crop),
        estimate_yield_with_model true (fun crop => some (f crop)) c
          = (score_to_category (f c), f c)) := by
  refine ⟨fun x => ?_, fun s => ?_, fun f c => rfl⟩
  · have hexp : 0 < Real.exp (-x) := Real.exp_pos _
    unfold sigmoid
    constructor
    · positivity
    · rw [div_le_one (by linarith)]
      linarith
  · unfold score_to_category
    split_ifs with h1 h2
    · exact ⟨iff_of_true rfl h1,
        iff_of_false (by simp) (fun h => absurd h1 (not_lt.mpr h.1)),
        iff_of_false (by simp) (not_le.mpr (by linarith))⟩
    · exact ⟨iff_of_false (by simp) (fun h => h1 h),
        iff_of_true rfl ⟨not_lt.mp h1, h2⟩,
        iff_of_false (by simp) (not_le.mpr h2)⟩
    · exact ⟨iff_of_false (by simp) (fun h => h1 h),
        iff_of_false (by simp) (fun h => h2 h.2),
        iff_of_true rfl (not_lt.mp h2)⟩
